import Mathlib

/-!
# Verification of the AutoTrade-System decision-and-execution core

Shallow embedding of the repository's core trading loop:
`app/core/strategy.py` (staged scorer), `app/core/engine.py` (risk governor,
position book, tick orchestrator, manual diagnosis) and
`app/services/kis_client.py` (broker gateway: credential validation, retry
policy, access-token cache).

Modelling conventions:
* Python floats are embedded as exact rationals (`ℚ`); the claims under
  study involve no float-rounding-sensitive comparisons.
* Wall-clock instants (`time.time()`, `datetime.utcnow()`) are an explicit
  rational parameter `now`; a single Python statement block reads the clock
  once in the model.
* I/O collaborators (market clock, quote fetch, order HTTP calls, the
  trade store, the notifier) are explicit environment parameters; observable
  side effects (db writes, orders, notifications) are recorded as an `Event`
  list.  A Python exception is an `Except`/`Option String` error value
  carrying `str(exc)`.
* Python's numeric string formatting (`:.2f`, `:,.0f`) is rendered by
  `fmtQ`; no claim depends on the exact digits these produce.
-/

namespace AutoTrade

/-- Stands in for Python's numeric string interpolation (`:.2f`, `:,.0f`,
plain `{x}`) in reason/notification strings; the claims never inspect the
digits produced by these renderings. -/
def fmtQ (x : ℚ) : String := toString x

/-! ## Data model (`kis_client.Quote`, config snapshot, `engine.EngineRuntime`) -/

/-- `app/services/kis_client.py` dataclass `Quote`. -/
structure Quote where
  symbol : String
  price : ℚ
  volume_ratio : ℚ
  volatility_pct : ℚ
  execution_strength : ℚ
  spread_pct : ℚ
  trend_slope : ℚ
  deriving DecidableEq, Repr

/-- `config["stages"]["universe"]`. -/
structure UniverseCfg where
  max_spread_pct : ℚ
  deriving DecidableEq, Repr

/-- `config["stages"]["pre_breakout"]`. -/
structure PreBreakoutCfg where
  volume_spike_ratio_min : ℚ
  intraday_volatility_pct_min : ℚ
  deriving DecidableEq, Repr

/-- `config["stages"]["trigger"]`. -/
structure TriggerCfg where
  breakout_zone_1_pct : ℚ
  breakout_zone_2_pct : ℚ
  breakout_zone_3_pct : ℚ
  deriving DecidableEq, Repr

/-- `config["stages"]["confirmation"]`. -/
structure ConfirmationCfg where
  execution_strength_min : ℚ
  spread_pct_max : ℚ
  trend_slope_min : ℚ
  deriving DecidableEq, Repr

/-- `config["stages"]["exit"]`. -/
structure ExitCfg where
  stop_loss_pct : ℚ
  take_profit_pct : ℚ
  deriving DecidableEq, Repr

/-- `config["stages"]`: the fixed key set used by the engine. -/
structure StagesCfg where
  univ : UniverseCfg
  pre_breakout : PreBreakoutCfg
  trigger : TriggerCfg
  confirmation : ConfirmationCfg
  exit : ExitCfg
  deriving DecidableEq, Repr

/-- `config["scoring_weights"]`: one weight per stage (fixed key set). -/
structure Weights where
  univ : ℚ
  pre_breakout : ℚ
  trigger : ℚ
  confirmation : ℚ
  deriving DecidableEq, Repr

/-- `config["risk_limits"]`.  Keys read through `.get(key, default)` in the
source are `Option`-valued here (`none` = key absent from the YAML);
keys indexed directly (`risk["max_positions"]`, ...) are plain fields. -/
structure RiskLimits where
  max_orders_per_day : Option ℤ
  max_daily_trades : Option ℤ
  max_daily_loss_krw : Option ℚ
  max_daily_loss_pct : Option ℚ
  equity_base_krw : Option ℚ
  max_positions : ℕ
  max_buy_amount_per_trade_krw : ℚ
  cooldown_after_consecutive_losses : ℕ
  cooldown_minutes : ℚ
  deriving DecidableEq, Repr

/-- The strategy-config snapshot loaded each cycle (`strategy.yaml`). -/
structure Config where
  mode : String
  risk_limits : RiskLimits
  scoring_weights : Weights
  stages : StagesCfg
  deriving DecidableEq, Repr

/-- One entry of `EngineRuntime.open_positions`:
`{"trade_id": ..., "entry_price": ..., "qty": ...}`. -/
structure Position where
  trade_id : ℕ
  entry_price : ℚ
  qty : ℤ
  deriving DecidableEq, Repr

/-- `app/core/engine.py` dataclass `EngineRuntime`.  The Python dict
`open_positions` (keyed by symbol, one entry per symbol) is an association
list. -/
structure EngineRuntime where
  enabled : Bool := false
  open_positions : List (String × Position) := []
  daily_trades : ℕ := 0
  daily_loss_krw : ℚ := 0
  consecutive_losses : ℕ := 0
  cooldown_until_epoch : ℚ := 0
  fatal_error : Option String := none
  deriving DecidableEq, Repr

/-- The dataclass defaults of `EngineRuntime` (fresh engine state). -/
def EngineRuntime.init : EngineRuntime := {}

/-! ## Scorer (`app/core/strategy.py`, `StageStrategy.evaluate`) -/

/-- One entry of `stage_checks` in `StageStrategy.evaluate`. -/
structure StageResult where
  passed : Bool
  score : ℚ
  max_score : ℚ
  reason : String
  deriving DecidableEq, Repr

/-- `strategy.ScoreResult`.  The source's `stage_scores`/`stage_checks`
dicts always hold exactly the four stage keys, carried here as named
fields (each stage's `score` is the `stage_scores` entry). -/
structure ScoreResult where
  passed : Bool
  total_score : ℚ
  univ : StageResult
  pre_breakout : StageResult
  trigger : StageResult
  confirmation : StageResult
  reason : String
  deriving DecidableEq, Repr

/-- `StageStrategy.evaluate(q)` (strategy.py lines 24-97). -/
def evaluate (cfg : Config) (q : Quote) : ScoreResult :=
  let u := cfg.stages.univ
  let universe_pass : Bool := decide (q.spread_pct ≤ u.max_spread_pct)
  let universe_score : ℚ := if universe_pass then cfg.scoring_weights.univ else 0
  let universe_check : StageResult :=
    { passed := universe_pass, score := universe_score,
      max_score := cfg.scoring_weights.univ,
      reason := if universe_pass then
          "spread " ++ fmtQ q.spread_pct ++ "% <= " ++ fmtQ u.max_spread_pct ++ "%"
        else "spread 초과: " ++ fmtQ q.spread_pct ++ "%" }
  let pb := cfg.stages.pre_breakout
  let pb_pass : Bool := decide (q.volume_ratio ≥ pb.volume_spike_ratio_min) &&
    decide (q.volatility_pct ≥ pb.intraday_volatility_pct_min)
  let pb_score : ℚ := if pb_pass then cfg.scoring_weights.pre_breakout else 0
  let pb_check : StageResult :=
    { passed := pb_pass, score := pb_score,
      max_score := cfg.scoring_weights.pre_breakout,
      reason := if pb_pass then
          "volume_ratio " ++ fmtQ q.volume_ratio ++ ", volatility " ++ fmtQ q.volatility_pct ++ "%"
        else if q.volume_ratio < pb.volume_spike_ratio_min then
          "volume_ratio 부족(" ++ fmtQ q.volume_ratio ++ ")"
        else "volatility 부족" }
  let t := cfg.stages.trigger
  let trigger_score : ℚ :=
    if q.volatility_pct ≥ t.breakout_zone_3_pct then cfg.scoring_weights.trigger
    else if q.volatility_pct ≥ t.breakout_zone_2_pct then cfg.scoring_weights.trigger * (3 / 4)
    else if q.volatility_pct ≥ t.breakout_zone_1_pct then cfg.scoring_weights.trigger * (2 / 5)
    else 0
  let trigger_reason : String :=
    if q.volatility_pct ≥ t.breakout_zone_3_pct then "돌파구간3(강)"
    else if q.volatility_pct ≥ t.breakout_zone_2_pct then "돌파구간2(확정)"
    else if q.volatility_pct ≥ t.breakout_zone_1_pct then "돌파구간1(약)"
    else "돌파 미충족"
  let trigger_check : StageResult :=
    { passed := decide (trigger_score > 0), score := trigger_score,
      max_score := cfg.scoring_weights.trigger, reason := trigger_reason }
  let c := cfg.stages.confirmation
  let conf_pass : Bool := decide (q.execution_strength ≥ c.execution_strength_min) &&
    decide (q.spread_pct ≤ c.spread_pct_max) && decide (q.trend_slope ≥ c.trend_slope_min)
  let conf_score : ℚ := if conf_pass then cfg.scoring_weights.confirmation else 0
  let conf_check : StageResult :=
    { passed := conf_pass, score := conf_score,
      max_score := cfg.scoring_weights.confirmation,
      reason := if conf_pass then
          "체결강도 " ++ fmtQ q.execution_strength ++ ", spread " ++ fmtQ q.spread_pct ++
            ", trend " ++ fmtQ q.trend_slope
        else "체결강도/스프레드/추세 조건 미충족" }
  let total : ℚ := universe_score + pb_score + trigger_score + conf_score
  let passed : Bool := decide (total ≥ 65) && pb_pass && conf_pass
  { passed := passed, total_score := total,
    univ := universe_check, pre_breakout := pb_check,
    trigger := trigger_check, confirmation := conf_check,
    reason := if passed then "통과" else "단계 점수 미달 또는 확인조건 실패" }

/-! ## Engine environment: collaborators and observable effects -/

/-- `app/core/market_hours.py` dataclass `MarketStatus`. -/
structure MarketStatus where
  is_open : Bool
  can_place_order : Bool
  reason : String
  deriving DecidableEq, Repr

/-- `place_order` result statuses the engine inspects
(`order.get("status")`). -/
inductive OrderStatus where
  | SIMULATED
  | FILLED
  | BLOCKED
  deriving DecidableEq, Repr

/-- Observable side effects of a cycle: store writes (`db.insert_signal`,
`db.open_trade`, `db.close_trade`), broker order submissions
(`kis.place_order` being invoked), and notifications (`notifier.send`). -/
inductive Event where
  | insert_signal (symbol : String) (total_score : ℚ) (verdict : String) (reason : String)
  | open_trade (symbol : String) (qty : ℤ) (entry_price : ℚ) (reason : String)
  | close_trade (trade_id : ℕ) (exit_price : ℚ) (fees : ℚ) (reason_exit : String)
  | order (symbol : String) (qty : ℤ) (side : String) (price : ℚ)
  | notify (message : String)
  deriving DecidableEq, Repr

/-- The engine's collaborators for one `tick`, fixed for the cycle:
`place_order symbol qty side price` is the outcome of the broker call
(`.error e` = the call raised an exception with text `e`); `trade_id` is
the row id `db.open_trade` returns for the symbol entered this cycle. -/
structure OrderEnv where
  place_order : String → ℤ → String → ℚ → Except String OrderStatus
  trade_id : String → ℕ

/-- Everything `tick` reads from outside `EngineRuntime`: the reloaded
config snapshot, `get_market_status()`, `time.time()`, the
`AUTOTRADE_EQUITY_BASE_KRW` env override, the outcome of
`kis.fetch_universe_quotes()`, and the order/store collaborators. -/
structure TickEnv where
  config : Config
  market : MarketStatus
  now : ℚ
  equity_env : Option ℚ
  fetch_quotes : Except String (List Quote)
  order : OrderEnv

/-- Result of one engine step: the runtime after it, the effects it
performed, and — when a Python exception escaped the step — the exception
text (effects performed before the raise are kept). -/
structure StepOut where
  rt : EngineRuntime
  events : List Event
  err : Option String
  deriving Repr

/-! ## Risk governor (`AutoTradingEngine.risk_check_detail`, engine.py 97-119) -/

/-- `risk_check_detail()`.  `equity_env` is the
`AUTOTRADE_EQUITY_BASE_KRW` environment override (`none` = unset, falling
back to `risk_limits["equity_base_krw"]`). -/
def risk_check_detail (cfg : Config) (equity_env : Option ℚ) (rt : EngineRuntime)
    (now : ℚ) : Bool × String :=
  let risk := cfg.risk_limits
  let max_orders_per_day : ℤ := risk.max_orders_per_day.getD (risk.max_daily_trades.getD 0)
  if max_orders_per_day > 0 ∧ (rt.daily_trades : ℤ) ≥ max_orders_per_day then
    (false, "일 주문횟수 제한 도달(" ++ toString rt.daily_trades ++ "/" ++
      toString max_orders_per_day ++ ")")
  else
    let max_daily_loss_krw : ℚ := risk.max_daily_loss_krw.getD 0
    if max_daily_loss_krw > 0 ∧ rt.daily_loss_krw ≤ -max_daily_loss_krw then
      (false, "일 손실한도 초과(" ++ fmtQ rt.daily_loss_krw ++ "원)")
    else
      let max_daily_loss_pct : ℚ := risk.max_daily_loss_pct.getD 0
      let equity : ℚ := equity_env.getD (risk.equity_base_krw.getD 0)
      let loss_pct : ℚ := |rt.daily_loss_krw| / equity * 100
      if max_daily_loss_pct > 0 ∧ equity > 0 ∧ loss_pct ≥ max_daily_loss_pct then
        (false, "일 손실률 제한 초과(" ++ fmtQ loss_pct ++ "%/" ++ fmtQ max_daily_loss_pct ++ "%)")
      else if rt.cooldown_until_epoch > now then
        (false, "연속손실 쿨다운(" ++ toString ⌊rt.cooldown_until_epoch - now⌋ ++ "초 남음)")
      else
        (true, "정상")

/-! ## Position book (`_try_entry` / `_manage_positions`, engine.py 197-234) -/

/-- `AutoTradingEngine._try_entry(symbol, price, reason)`. -/
def try_entry (cfg : Config) (env : OrderEnv) (rt : EngineRuntime)
    (symbol : String) (price : ℚ) (reason : String) : StepOut :=
  if (rt.open_positions.lookup symbol).isSome then ⟨rt, [], none⟩
  else if rt.open_positions.length ≥ cfg.risk_limits.max_positions then ⟨rt, [], none⟩
  else
    let qty : ℤ := ⌊cfg.risk_limits.max_buy_amount_per_trade_krw / price⌋
    if qty ≤ 0 then ⟨rt, [], none⟩
    else
      match env.place_order symbol qty "BUY" price with
      | .error e => ⟨rt, [.order symbol qty "BUY" price], some e⟩
      | .ok st =>
        if st = .SIMULATED ∨ st = .FILLED then
          let tid := env.trade_id symbol
          ⟨{ rt with
              open_positions := (symbol, ⟨tid, price, qty⟩) :: rt.open_positions,
              daily_trades := rt.daily_trades + 1 },
           [.order symbol qty "BUY" price,
            .open_trade symbol qty price reason,
            .notify ("[진입] " ++ symbol ++ " " ++ toString qty ++ "주 @ " ++ fmtQ price)],
           none⟩
        else ⟨rt, [.order symbol qty "BUY" price], none⟩

/-- The exit predicate of `_manage_positions`:
`change_pct = (price / entry_price - 1) * 100`,
exit when `change_pct <= -stop_loss_pct or change_pct >= take_profit_pct`. -/
def should_exit (ex : ExitCfg) (entry_price price : ℚ) : Bool :=
  let change_pct : ℚ := (price / entry_price - 1) * 100
  decide (change_pct ≤ -ex.stop_loss_pct) || decide (change_pct ≥ ex.take_profit_pct)

/-- One iteration of the `_manage_positions` loop for quote `q`. -/
def manage_one (cfg : Config) (env : OrderEnv) (now : ℚ) (rt : EngineRuntime)
    (q : Quote) : StepOut :=
  match rt.open_positions.lookup q.symbol with
  | none => ⟨rt, [], none⟩
  | some pos =>
    if should_exit cfg.stages.exit pos.entry_price q.price then
      match env.place_order q.symbol pos.qty "SELL" q.price with
      | .error e => ⟨rt, [.order q.symbol pos.qty "SELL" q.price], some e⟩
      | .ok st =>
        if st = .SIMULATED ∨ st = .FILLED then
          let pnl : ℚ := (q.price - pos.entry_price) * pos.qty - 500
          let losses : ℕ := if pnl < 0 then rt.consecutive_losses + 1 else 0
          let cooldown : ℚ :=
            if losses ≥ cfg.risk_limits.cooldown_after_consecutive_losses then
              now + cfg.risk_limits.cooldown_minutes * 60
            else rt.cooldown_until_epoch
          ⟨{ rt with
              daily_loss_krw := rt.daily_loss_krw + min 0 pnl,
              consecutive_losses := losses,
              cooldown_until_epoch := cooldown,
              open_positions := rt.open_positions.filter (fun p => p.1 ≠ q.symbol) },
           [.order q.symbol pos.qty "SELL" q.price,
            .close_trade pos.trade_id q.price 500 "auto_exit",
            .notify ("[청산] " ++ q.symbol ++ " 손익 " ++ fmtQ pnl ++ "원")],
           none⟩
        else ⟨rt, [.order q.symbol pos.qty "SELL" q.price], none⟩
    else ⟨rt, [], none⟩

/-- `AutoTradingEngine._manage_positions(quotes)`: the loop over quotes;
an escaping exception stops the loop, keeping earlier iterations'
effects. -/
def manage_positions (cfg : Config) (env : OrderEnv) (now : ℚ) :
    List Quote → EngineRuntime → StepOut
  | [], rt => ⟨rt, [], none⟩
  | q :: rest, rt =>
    let o := manage_one cfg env now rt q
    match o.err with
    | some e => ⟨o.rt, o.events, some e⟩
    | none =>
      let r := manage_positions cfg env now rest o.rt
      ⟨r.rt, o.events ++ r.events, r.err⟩

/-! ## Tick orchestrator (`AutoTradingEngine.tick`, engine.py 59-95) -/

/-- The per-quote body of the `tick` scoring loop: score, persist the
signal, and attempt entry when the verdict passed and the market allows
orders. -/
def process_quotes (cfg : Config) (env : OrderEnv) (status : MarketStatus) :
    List Quote → EngineRuntime → StepOut
  | [], rt => ⟨rt, [], none⟩
  | q :: rest, rt =>
    let result := evaluate cfg q
    let sig : Event := .insert_signal q.symbol result.total_score
      (if result.passed then "PASS" else "FAIL") result.reason
    let entry : StepOut :=
      if result.passed && status.can_place_order then
        try_entry cfg env rt q.symbol q.price result.reason
      else ⟨rt, [], none⟩
    match entry.err with
    | some e => ⟨entry.rt, sig :: entry.events, some e⟩
    | none =>
      let r := process_quotes cfg env status rest entry.rt
      ⟨r.rt, sig :: (entry.events ++ r.events), r.err⟩

/-- The `except Exception` handler of `tick` (engine.py 91-95): disable,
record the error text, notify. -/
def fatal_transition (rt : EngineRuntime) (e : String) (evs : List Event) :
    EngineRuntime × List Event :=
  ({ rt with enabled := false, fatal_error := some e },
   evs ++ [.notify ("[치명오류] 자동매매 중지: " ++ e)])

/-- `AutoTradingEngine.tick()`.  Config reload is `env.config`; the market
status is queried but (when orders are blocked) only logged — scoring
continues and entries are suppressed inside `process_quotes`. -/
def tick (env : TickEnv) (rt : EngineRuntime) : EngineRuntime × List Event :=
  if !rt.enabled then (rt, [])
  else if rt.cooldown_until_epoch > env.now then (rt, [])
  else if !(risk_check_detail env.config env.equity_env rt env.now).1 then (rt, [])
  else
    match env.fetch_quotes with
    | .error e => fatal_transition rt e []
    | .ok quotes =>
      let p := process_quotes env.config env.order env.market quotes rt
      match p.err with
      | some e => fatal_transition p.rt e p.events
      | none =>
        let m := manage_positions env.config env.order env.now quotes p.rt
        match m.err with
        | some e => fatal_transition m.rt e (p.events ++ m.events)
        | none => (m.rt, p.events ++ m.events)

/-- `AutoTradingEngine.enable(is_on)`. -/
def enable (rt : EngineRuntime) (is_on : Bool) : EngineRuntime :=
  { rt with enabled := is_on }

/-! ## Manual diagnosis (`AutoTradingEngine.run_manual_diagnosis`, engine.py 121-188) -/

/-- The `env_check` dict: mode plus presence of the three KIS credential
environment variables (`bool(os.getenv(...))`). -/
structure EnvCheck where
  mode : String
  kis_appkey : Bool
  kis_appsecret : Bool
  kis_account_no : Bool
  deriving DecidableEq, Repr

/-- One row of `run_manual_diagnosis`'s `rows`: the per-symbol dict with
the per-stage pass/reason pairs (fixed stage set), the
`can_auto_order_now` flag and the blocker string.  `price` is
`round(q.price, 2)`, modelled exactly on quotes with at most two
decimals (the tie-breaking of Python's bankers' rounding is immaterial
to the claims). -/
structure DiagRow where
  symbol : String
  price : ℚ
  total_score : ℚ
  strategy_pass : Bool
  strategy_reason : String
  universe_pass : Bool
  universe_reason : String
  pre_breakout_pass : Bool
  pre_breakout_reason : String
  trigger_pass : Bool
  trigger_reason : String
  confirmation_pass : Bool
  confirmation_reason : String
  can_auto_order_now : Bool
  blocker : String
  deriving DecidableEq, Repr

/-- `round(x, 2)` (round-half-to-even tie handling omitted; see
`DiagRow.price`). -/
def round2 (x : ℚ) : ℚ := (round (x * 100) : ℚ) / 100

/-- The report dict `run_manual_diagnosis` returns. -/
structure DiagReport where
  market : MarketStatus
  risk_ok : Bool
  risk_reason : String
  env_check : EnvCheck
  env_reason : String
  error : Option String
  rows : List DiagRow
  deriving DecidableEq, Repr

/-- One row of the diagnosis loop body (engine.py 142-168). -/
def diag_row (cfg : Config) (market : MarketStatus) (risk_ok : Bool)
    (risk_reason env_reason : String) (q : Quote) : DiagRow :=
  let result := evaluate cfg q
  let can_auto_order_now : Bool :=
    result.passed && market.can_place_order && risk_ok && (env_reason == "정상")
  let blocker : String :=
    if can_auto_order_now then "없음"
    else String.intercalate " | "
      ((if !result.passed then ["전략미통과"] else []) ++
       (if !market.can_place_order then ["시장:" ++ market.reason] else []) ++
       (if !risk_ok then ["리스크:" ++ risk_reason] else []) ++
       (if env_reason ≠ "정상" then [env_reason] else []))
  { symbol := q.symbol, price := round2 q.price,
    total_score := result.total_score,
    strategy_pass := result.passed, strategy_reason := result.reason,
    universe_pass := result.univ.passed, universe_reason := result.univ.reason,
    pre_breakout_pass := result.pre_breakout.passed,
    pre_breakout_reason := result.pre_breakout.reason,
    trigger_pass := result.trigger.passed, trigger_reason := result.trigger.reason,
    confirmation_pass := result.confirmation.passed,
    confirmation_reason := result.confirmation.reason,
    can_auto_order_now := can_auto_order_now, blocker := blocker }

/-- `AutoTradingEngine.run_manual_diagnosis()`.  `appkey`, `appsecret`,
`account_no` are the presence of the three credential env vars.  Returns
the report together with the engine runtime after the call and the
trading effects it performed. -/
def run_manual_diagnosis (env : TickEnv) (appkey appsecret account_no : Bool)
    (rt : EngineRuntime) : DiagReport × EngineRuntime × List Event :=
  let market := env.market
  let rc := risk_check_detail env.config env.equity_env rt env.now
  let env_check : EnvCheck :=
    { mode := env.config.mode, kis_appkey := appkey,
      kis_appsecret := appsecret, kis_account_no := account_no }
  let env_reason : String :=
    if env_check.mode = "LIVE" ∧ ¬(appkey ∧ appsecret ∧ account_no) then
      "LIVE 필수 환경변수 누락"
    else "정상"
  match env.fetch_quotes with
  | .error exc =>
    ({ market := market, risk_ok := rc.1, risk_reason := rc.2,
       env_check := env_check, env_reason := env_reason,
       error := some exc, rows := [] }, rt, [])
  | .ok quotes =>
    ({ market := market, risk_ok := rc.1, risk_reason := rc.2,
       env_check := env_check, env_reason := env_reason,
       error := none,
       rows := quotes.map (diag_row env.config market rc.1 rc.2 env_reason) }, rt, [])

/-! ## Broker gateway (`app/services/kis_client.py`) -/

/-- The client's credential/mode fields, read from the environment at
construction (`KISClient.__init__`): `os.getenv` with default `""`. -/
structure KISClient where
  dry_run : Bool
  appkey : String
  appsecret : String
  account_no : String
  mock_live_order : Bool
  deriving DecidableEq, Repr

/-- The client's mutable token cache (`self._token`,
`self._token_expire_at`; the expiry instant as epoch seconds). -/
structure TokenCache where
  token : Option String
  token_expire_at : Option ℚ
  deriving DecidableEq, Repr

/-- The network outcomes available to one LIVE order attempt, each
collapsed to the value the source extracts from the HTTP response:
`token_fetch` is the `/oauth2/tokenP` POST (`access_token`,
`expires_in`; `.error` = request raised or response lacked a token —
both raise `KISError` in the source); `hashkey` is the `/uapi/hashkey`
POST; `order_http` is the order POST's `(status_code, rt_cd, msg1)`,
`.error` = the POST itself raised. -/
structure KISNet where
  market : MarketStatus
  token_fetch : Except String (String × ℤ)
  hashkey : Except String String
  order_http : Except String (ℤ × String × String)

/-- `KISClient._validate_live_env` (kis_client.py 216-223): `some msg` =
`raise KISError(msg)`. -/
def validate_live_env (c : KISClient) : Option String :=
  let missing : List String :=
    (if c.appkey = "" then ["KIS_APPKEY"] else []) ++
    (if c.appsecret = "" then ["KIS_APPSECRET"] else []) ++
    (if c.account_no = "" then ["KIS_ACCOUNT_NO"] else [])
  if missing ≠ [] then
    some ("Missing required LIVE env vars: " ++ String.intercalate ", " missing)
  else none

/-- `KISClient._get_access_token` (kis_client.py 253-275).  Returns the
token, the cache after the call, and the number of token-fetch network
requests performed (0 or 1).  The cached token is reused when `_token`
is truthy (non-empty), `_token_expire_at` is set and `utcnow() <
_token_expire_at`; otherwise one fetch happens and the expiry is stored
as `now + max(60, expires_in - 60)`. -/
def get_access_token (now : ℚ) (fetch : Except String (String × ℤ))
    (c : TokenCache) : Except String (String × TokenCache × ℕ) :=
  let cached : Option String :=
    match c.token, c.token_expire_at with
    | some t, some e => if t ≠ "" ∧ now < e then some t else none
    | _, _ => none
  match cached with
  | some t => .ok (t, c, 0)
  | none =>
    match fetch with
    | .error e => .error e
    | .ok (tok, expires_sec) =>
      let expire : ℚ := now + (max 60 (expires_sec - 60) : ℤ)
      .ok (tok, ⟨some tok, some expire⟩, 1)

/-- `KISClient._tr_id(side)`. -/
def tr_id (side : String) : Except String String :=
  if side.toUpper = "BUY" then .ok "TTTC0802U"
  else if side.toUpper = "SELL" then .ok "TTTC0801U"
  else .error ("Unsupported side: " ++ side)

/-- The order result dict of `place_order`, restricted to the fields the
callers inspect. -/
structure OrderOut where
  status : String
  symbol : String
  qty : ℤ
  side : String
  price : ℚ
  rt_cd : Option String
  msg1 : Option String
  deriving DecidableEq, Repr

/-- One attempt of `KISClient.place_order` (the decorated function body,
kis_client.py 131-214).  Returns the outcome (`.error e` = `raise
KISError(e)`) and the token cache after the attempt. -/
def place_order_once (c : KISClient) (net : KISNet) (now : ℚ) (st : TokenCache)
    (symbol : String) (qty : ℤ) (side : String) (price : ℚ) :
    Except String OrderOut × TokenCache :=
  if c.dry_run then (.ok ⟨"SIMULATED", symbol, qty, side, price, none, none⟩, st)
  else if !net.market.can_place_order then (.ok ⟨"BLOCKED", symbol, qty, side, price, none, none⟩, st)
  else
    match validate_live_env c with
    | some e => (.error e, st)
    | none =>
      if c.mock_live_order then
        (.ok ⟨"FILLED", symbol, qty, side, price, some "0", some "LIVE mock order success"⟩, st)
      else
        match get_access_token now net.token_fetch st with
        | .error e => (.error e, st)
        | .ok (_, st', _) =>
          -- _build_order_body → _split_account_no can raise on short account numbers
          if ((c.account_no.replace "-" "").length < 10) then
            (.error "KIS_ACCOUNT_NO format invalid. expected e.g. 12345678-01", st')
          else
            match net.hashkey with
            | .error e => (.error e, st')
            | .ok _ =>
              match tr_id side with
              | .error e => (.error e, st')
              | .ok _ =>
                match net.order_http with
                | .error e => (.error e, st')
                | .ok (code, rt_cd, msg1) =>
                  if code ≠ 200 ∨ rt_cd ≠ "0" then
                    (.error ("KIS order failed: status=" ++ toString code ++
                      ", rt_cd=" ++ rt_cd ++ ", msg1=" ++ msg1), st')
                  else (.ok ⟨"FILLED", symbol, qty, side, price, some rt_cd, some msg1⟩, st')

/-- The tenacity policy on `place_order`/`fetch_universe_quotes`:
`retry_if_exception_type(KISError)`, `stop_after_attempt(3)` — every
error in this model is a `KISError`, so each failed attempt is retried
until 3 attempts have run, then the last error surfaces.  Returns the
final outcome, the cache, and the number of attempts made. -/
def retry_go (c : KISClient) (net : KISNet) (now : ℚ) (symbol : String)
    (qty : ℤ) (side : String) (price : ℚ) :
    ℕ → TokenCache → ℕ → Except String OrderOut × TokenCache × ℕ
  | 0, st, made => (.error "retry exhausted", st, made)
  | remaining + 1, st, made =>
    match place_order_once c net now st symbol qty side price with
    | (.ok out, st') => (.ok out, st', made + 1)
    | (.error e, st') =>
      match remaining with
      | 0 => (.error e, st', made + 1)
      | _ + 1 => retry_go c net now symbol qty side price remaining st' (made + 1)

/-- `KISClient.place_order` with its retry decoration. -/
def place_order (c : KISClient) (net : KISNet) (now : ℚ) (st : TokenCache)
    (symbol : String) (qty : ℤ) (side : String) (price : ℚ) :
    Except String OrderOut × TokenCache × ℕ :=
  retry_go c net now symbol qty side price 3 st 0

/-! ## Concrete fixtures used by counterexamples and witnesses -/

/-- The risk-limit block of the repository's reference configuration
(`tests/test_engine_manual.py`, `DummyConfigManager.load`). -/
def rlDefault : RiskLimits :=
  { max_orders_per_day := some 8, max_daily_trades := some 8,
    max_daily_loss_krw := some 600000, max_daily_loss_pct := some (5/2),
    equity_base_krw := some 30000000, max_positions := 4,
    max_buy_amount_per_trade_krw := 1500000,
    cooldown_after_consecutive_losses := 3, cooldown_minutes := 20 }

/-- The repository's reference configuration
(`tests/test_engine_manual.py`). -/
def cfgDefault : Config :=
  { mode := "DRY-RUN", risk_limits := rlDefault,
    scoring_weights := ⟨20, 25, 30, 25⟩,
    stages :=
      { univ := ⟨12/10⟩,
        pre_breakout := ⟨22/10, 18/10⟩,
        trigger := ⟨6/10, 12/10, 2⟩,
        confirmation := ⟨105, 9/10, 2/10⟩,
        exit := ⟨18/10, 42/10⟩ } }

/-- A configuration differing from `cfgDefault` only in the confirmation
stage's spread cap (`spread_pct_max = 2`, above the universe stage's
`max_spread_pct = 1.2`). -/
def cfgRelaxedConf : Config :=
  { cfgDefault with
    stages := { cfgDefault.stages with confirmation := ⟨105, 2, 2/10⟩ } }

/-- A quote whose spread (1.5%) exceeds `cfgDefault`'s universe cap but
clears every other stage of `cfgRelaxedConf`. -/
def qWideSpread : Quote :=
  { symbol := "005930", price := 70000, volume_ratio := 3,
    volatility_pct := 5/2, execution_strength := 120,
    spread_pct := 3/2, trend_slope := 2/5 }

/-! ## C1 — final verdict gating -/

/-- C1: for every config and quote, `evaluate` passes iff the sum of the
four stage scores is ≥ 65 and the pre-breakout and confirmation stages
passed; the trigger stage only contributes to the sum (`total_score` is
exactly the four-stage sum and the verdict does not consult the trigger
stage's pass flag). -/
theorem claimC1_verdict_gating (cfg : Config) (q : Quote) :
    ((evaluate cfg q).passed = true ↔
      ((evaluate cfg q).total_score ≥ 65 ∧
       (evaluate cfg q).pre_breakout.passed = true ∧
       (evaluate cfg q).confirmation.passed = true)) ∧
    (evaluate cfg q).total_score =
      (evaluate cfg q).univ.score + (evaluate cfg q).pre_breakout.score +
        (evaluate cfg q).trigger.score + (evaluate cfg q).confirmation.score := by
  constructor
  · simp [evaluate, Bool.and_eq_true, decide_eq_true_eq, and_assoc]
  · rfl

/-! ## C2 — wide spread zeroes the universe stage -/

/-- C2 counterexample: with a config whose confirmation-stage spread cap
(2%) is looser than the universe-stage cap (1.2%) and the repository's
reference weights (20/25/30/25), a quote with spread 1.5% fails the
universe stage (score 0) yet the overall verdict is `passed = true` —
refuting "spreadPct > maxSpreadPct implies passed = false" as stated
over all configs. -/
theorem claimC2_counterexample :
    qWideSpread.spread_pct > cfgRelaxedConf.stages.univ.max_spread_pct ∧
    (evaluate cfgRelaxedConf qWideSpread).univ.score = 0 ∧
    (evaluate cfgRelaxedConf qWideSpread).passed = true := by
  refine ⟨by norm_num [cfgRelaxedConf, cfgDefault, qWideSpread], ?_, ?_⟩ <;>
    norm_num [evaluate, cfgRelaxedConf, cfgDefault, qWideSpread]

/-- C2 (amended): for every quote with `spreadPct > maxSpreadPct` the
universe stage scores exactly 0; and the overall verdict is
`passed = false` whenever, in addition, the confirmation stage's spread
cap is at most the universe stage's (as in the repository's reference
config, 0.9 ≤ 1.2). -/
theorem claimC2_amended (cfg : Config) (q : Quote)
    (h : q.spread_pct > cfg.stages.univ.max_spread_pct) :
    (evaluate cfg q).univ.score = 0 ∧
    (cfg.stages.confirmation.spread_pct_max ≤ cfg.stages.univ.max_spread_pct →
      (evaluate cfg q).passed = false) := by
  have h1 : ¬ (q.spread_pct ≤ cfg.stages.univ.max_spread_pct) := not_le.mpr h
  constructor
  · simp [evaluate, h1]
  · intro h2
    have h3 : ¬ (q.spread_pct ≤ cfg.stages.confirmation.spread_pct_max) :=
      not_le.mpr (lt_of_le_of_lt h2 h)
    simp [evaluate, h3]

/-- Witness for `claimC2_amended` at the repository's reference config
and the wide-spread quote. -/
theorem claimC2_amended_witness :
    qWideSpread.spread_pct > cfgDefault.stages.univ.max_spread_pct ∧
    (evaluate cfgDefault qWideSpread).univ.score = 0 ∧
    (evaluate cfgDefault qWideSpread).passed = false := by
  have h : qWideSpread.spread_pct > cfgDefault.stages.univ.max_spread_pct := by
    norm_num [cfgDefault, qWideSpread]
  have h2 := claimC2_amended cfgDefault qWideSpread h
  exact ⟨h, h2.1, h2.2 (by norm_num [cfgDefault])⟩

/-! ## C3 — risk admission check: fixed order, short-circuit, skip-on-unset -/

/-- A runtime at the daily order-count cap of `cfgDefault`
(`daily_trades = 8 = max_orders_per_day`). -/
def rt8 : EngineRuntime := { enabled := true, daily_trades := 8 }

/-- C3: `risk_check_detail` evaluates count cap, absolute loss cap,
percentage loss cap, cooldown, in that fixed order with the first
failing check's reason returned (each earlier part holds whatever the
later checks' state is), each cap is skipped when its configured limit
is 0/unset, the cooldown denial (with remaining seconds) respectively
the `"정상"` pass is reached whenever none of the three cap checks
fires — configured or not — and at `maxOrdersPerDay = 8`,
`dailyTradeCount = 8` the reason contains `"8/8"`. -/
theorem claimC3_risk_admission_order :
    (∀ (cfg : Config) (eqv : Option ℚ) (rt : EngineRuntime) (now : ℚ),
      0 < cfg.risk_limits.max_orders_per_day.getD (cfg.risk_limits.max_daily_trades.getD 0) →
      (rt.daily_trades : ℤ) ≥
        cfg.risk_limits.max_orders_per_day.getD (cfg.risk_limits.max_daily_trades.getD 0) →
      risk_check_detail cfg eqv rt now =
        (false, "일 주문횟수 제한 도달(" ++ toString rt.daily_trades ++ "/" ++
          toString (cfg.risk_limits.max_orders_per_day.getD
            (cfg.risk_limits.max_daily_trades.getD 0)) ++ ")")) ∧
    (∀ (cfg : Config) (eqv : Option ℚ) (rt : EngineRuntime) (now : ℚ),
      ¬(0 < cfg.risk_limits.max_orders_per_day.getD (cfg.risk_limits.max_daily_trades.getD 0) ∧
        (rt.daily_trades : ℤ) ≥
          cfg.risk_limits.max_orders_per_day.getD (cfg.risk_limits.max_daily_trades.getD 0)) →
      0 < cfg.risk_limits.max_daily_loss_krw.getD 0 →
      rt.daily_loss_krw ≤ -(cfg.risk_limits.max_daily_loss_krw.getD 0) →
      risk_check_detail cfg eqv rt now =
        (false, "일 손실한도 초과(" ++ fmtQ rt.daily_loss_krw ++ "원)")) ∧
    (∀ (cfg : Config) (eqv : Option ℚ) (rt : EngineRuntime) (now : ℚ),
      ¬(0 < cfg.risk_limits.max_orders_per_day.getD (cfg.risk_limits.max_daily_trades.getD 0) ∧
        (rt.daily_trades : ℤ) ≥
          cfg.risk_limits.max_orders_per_day.getD (cfg.risk_limits.max_daily_trades.getD 0)) →
      ¬(0 < cfg.risk_limits.max_daily_loss_krw.getD 0 ∧
        rt.daily_loss_krw ≤ -(cfg.risk_limits.max_daily_loss_krw.getD 0)) →
      0 < cfg.risk_limits.max_daily_loss_pct.getD 0 →
      0 < eqv.getD (cfg.risk_limits.equity_base_krw.getD 0) →
      |rt.daily_loss_krw| / eqv.getD (cfg.risk_limits.equity_base_krw.getD 0) * 100 ≥
        cfg.risk_limits.max_daily_loss_pct.getD 0 →
      risk_check_detail cfg eqv rt now =
        (false, "일 손실률 제한 초과(" ++
          fmtQ (|rt.daily_loss_krw| / eqv.getD (cfg.risk_limits.equity_base_krw.getD 0) * 100) ++
          "%/" ++ fmtQ (cfg.risk_limits.max_daily_loss_pct.getD 0) ++ "%)")) ∧
    (∀ (cfg : Config) (eqv : Option ℚ) (rt : EngineRuntime) (now : ℚ),
      ¬(0 < cfg.risk_limits.max_orders_per_day.getD (cfg.risk_limits.max_daily_trades.getD 0) ∧
        (rt.daily_trades : ℤ) ≥
          cfg.risk_limits.max_orders_per_day.getD (cfg.risk_limits.max_daily_trades.getD 0)) →
      ¬(0 < cfg.risk_limits.max_daily_loss_krw.getD 0 ∧
        rt.daily_loss_krw ≤ -(cfg.risk_limits.max_daily_loss_krw.getD 0)) →
      ¬(0 < cfg.risk_limits.max_daily_loss_pct.getD 0 ∧
        0 < eqv.getD (cfg.risk_limits.equity_base_krw.getD 0) ∧
        |rt.daily_loss_krw| / eqv.getD (cfg.risk_limits.equity_base_krw.getD 0) * 100 ≥
          cfg.risk_limits.max_daily_loss_pct.getD 0) →
      (rt.cooldown_until_epoch > now →
        risk_check_detail cfg eqv rt now =
          (false, "연속손실 쿨다운(" ++ toString ⌊rt.cooldown_until_epoch - now⌋ ++ "초 남음)")) ∧
      (rt.cooldown_until_epoch ≤ now →
        risk_check_detail cfg eqv rt now = (true, "정상"))) ∧
    ((risk_check_detail cfgDefault none rt8 0).1 = false ∧
      ∃ a b, (risk_check_detail cfgDefault none rt8 0).2 = a ++ "8/8" ++ b) := by
  refine ⟨?_, ?_, ?_, ?_, ?_, "일 주문횟수 제한 도달(", ")", ?_⟩
  · intro cfg eqv rt now h1 h2
    simp [risk_check_detail, h1, h2]
  · intro cfg eqv rt now hc h1 h2
    simp [risk_check_detail, hc, h1, h2]
  · intro cfg eqv rt now hc hl h1 h2 h3
    simp [risk_check_detail, hc, hl, h1, h2, h3]
  · intro cfg eqv rt now hc1 hc2 hc3
    constructor
    · intro h4
      simp [risk_check_detail, hc1, hc2, hc3, h4]
    · intro h4
      simp [risk_check_detail, hc1, hc2, hc3, not_lt.mpr h4]
  · decide
  · decide

/-- A runtime below every cap of `cfgDefault` (3 of 8 trades, no loss)
but inside an active cooldown until epoch 100. -/
def rtCooldown : EngineRuntime :=
  { enabled := true, daily_trades := 3, cooldown_until_epoch := 100 }

/-- Witness for `claimC3_risk_admission_order`: the first conjunct at the
reference config and 8 trades yields the `8/8` count-denial, and the
cooldown conjunct at the reference config with its caps configured but
unmet (3/8 trades, zero loss) yields the cooldown denial. -/
theorem claimC3_witness :
    (0 < cfgDefault.risk_limits.max_orders_per_day.getD
      (cfgDefault.risk_limits.max_daily_trades.getD 0) ∧
    (rt8.daily_trades : ℤ) ≥ cfgDefault.risk_limits.max_orders_per_day.getD
      (cfgDefault.risk_limits.max_daily_trades.getD 0) ∧
    risk_check_detail cfgDefault none rt8 0 =
      (false, "일 주문횟수 제한 도달(" ++ toString rt8.daily_trades ++ "/" ++
        toString (cfgDefault.risk_limits.max_orders_per_day.getD
          (cfgDefault.risk_limits.max_daily_trades.getD 0)) ++ ")")) ∧
    (rtCooldown.cooldown_until_epoch > (0 : ℚ) ∧
    risk_check_detail cfgDefault none rtCooldown 0 =
      (false, "연속손실 쿨다운(" ++
        toString ⌊rtCooldown.cooldown_until_epoch - (0 : ℚ)⌋ ++ "초 남음)")) := by
  refine ⟨⟨by decide, by decide,
    claimC3_risk_admission_order.1 cfgDefault none rt8 0 (by decide) (by decide)⟩,
    by decide, ?_⟩
  exact (claimC3_risk_admission_order.2.2.2.1 cfgDefault none rtCooldown 0
    (by decide) (by decide) (by norm_num [cfgDefault, rlDefault, rtCooldown])).1 (by decide)

/-! ## C5 — entry idempotence and fill-gated recording -/

/-- An order environment whose broker always fills (DRY-RUN style). -/
def envSim : OrderEnv :=
  { place_order := fun _ _ _ _ => .ok .SIMULATED, trade_id := fun _ => 1 }

/-- Entries of an association list with no binding for `s` contribute no
`s`-keyed elements. -/
theorem lookup_none_countP (s : String) :
    ∀ l : List (String × Position), l.lookup s = none →
      l.countP (fun e => e.1 == s) = 0 := by
  intro l
  induction l with
  | nil => intro _; rfl
  | cons hd tl ih =>
    intro h
    by_cases hb : s = hd.1
    · simp [List.lookup, hb] at h
    · have h' : tl.lookup s = none := by
        simpa [List.lookup, beq_eq_false_iff_ne.mpr hb] using h
      have hb' : (hd.1 == s) = false := beq_eq_false_iff_ne.mpr (fun he => hb he.symm)
      simp [List.countP_cons, hb', ih h']

/-- `try_entry` either leaves the runtime unchanged or conses exactly one
new position for its symbol (and then reports no error). -/
theorem try_entry_rt_cases (cfg : Config) (env : OrderEnv) (rt : EngineRuntime)
    (s : String) (p : ℚ) (r : String) :
    (try_entry cfg env rt s p r).rt = rt ∨
    ((try_entry cfg env rt s p r).rt.open_positions =
      (s, ⟨env.trade_id s, p, ⌊cfg.risk_limits.max_buy_amount_per_trade_krw / p⌋⟩) ::
        rt.open_positions ∧
      (try_entry cfg env rt s p r).err = none) := by
  simp only [try_entry]
  split
  · exact Or.inl rfl
  · split
    · exact Or.inl rfl
    · split
      · exact Or.inl rfl
      · split
        · exact Or.inl rfl
        · split
          · exact Or.inr ⟨rfl, rfl⟩
          · exact Or.inl rfl

/-- C5: (1) a symbol already in the open-position book makes `_try_entry`
a strict no-op — runtime unchanged and no order submitted; (2) when the
gates pass and the BUY order's status is SIMULATED or FILLED, the
position is recorded, `daily_trades` is incremented, and the entry
notification is emitted; (3) a status that is neither SIMULATED nor
FILLED records nothing; (4) starting with no open position for the
symbol, two successive `_try_entry` calls leave at most one position for
it. -/
theorem claimC5_entry_idempotent :
    (∀ (cfg : Config) (env : OrderEnv) (rt : EngineRuntime) (s : String) (p : ℚ) (r : String),
      (rt.open_positions.lookup s).isSome →
      try_entry cfg env rt s p r = ⟨rt, [], none⟩) ∧
    (∀ (cfg : Config) (env : OrderEnv) (rt : EngineRuntime) (s : String) (p : ℚ) (r : String)
      (st : OrderStatus),
      rt.open_positions.lookup s = none →
      rt.open_positions.length < cfg.risk_limits.max_positions →
      0 < ⌊cfg.risk_limits.max_buy_amount_per_trade_krw / p⌋ →
      env.place_order s ⌊cfg.risk_limits.max_buy_amount_per_trade_krw / p⌋ "BUY" p = .ok st →
      (st = .SIMULATED ∨ st = .FILLED) →
      try_entry cfg env rt s p r =
        ⟨{ rt with
            open_positions :=
              (s, ⟨env.trade_id s, p, ⌊cfg.risk_limits.max_buy_amount_per_trade_krw / p⌋⟩) ::
                rt.open_positions,
            daily_trades := rt.daily_trades + 1 },
         [.order s ⌊cfg.risk_limits.max_buy_amount_per_trade_krw / p⌋ "BUY" p,
          .open_trade s ⌊cfg.risk_limits.max_buy_amount_per_trade_krw / p⌋ p r,
          .notify ("[진입] " ++ s ++ " " ++
            toString ⌊cfg.risk_limits.max_buy_amount_per_trade_krw / p⌋ ++ "주 @ " ++ fmtQ p)],
         none⟩) ∧
    (∀ (cfg : Config) (env : OrderEnv) (rt : EngineRuntime) (s : String) (p : ℚ) (r : String)
      (st : OrderStatus),
      rt.open_positions.lookup s = none →
      rt.open_positions.length < cfg.risk_limits.max_positions →
      0 < ⌊cfg.risk_limits.max_buy_amount_per_trade_krw / p⌋ →
      env.place_order s ⌊cfg.risk_limits.max_buy_amount_per_trade_krw / p⌋ "BUY" p = .ok st →
      ¬(st = .SIMULATED ∨ st = .FILLED) →
      try_entry cfg env rt s p r =
        ⟨rt, [.order s ⌊cfg.risk_limits.max_buy_amount_per_trade_krw / p⌋ "BUY" p], none⟩) ∧
    (∀ (cfg : Config) (env : OrderEnv) (rt : EngineRuntime) (s : String) (p p₂ : ℚ) (r r₂ : String),
      rt.open_positions.lookup s = none →
      ((try_entry cfg env (try_entry cfg env rt s p r).rt s p₂ r₂).rt.open_positions.countP
        (fun e => e.1 == s)) ≤ 1) := by
  have hnoop : ∀ (cfg : Config) (env : OrderEnv) (rt : EngineRuntime) (s : String) (p : ℚ)
      (r : String), (rt.open_positions.lookup s).isSome →
      try_entry cfg env rt s p r = ⟨rt, [], none⟩ := by
    intro cfg env rt s p r h
    unfold try_entry
    simp [h]
  refine ⟨hnoop, ?_, ?_, ?_⟩
  · intro cfg env rt s p r st h1 h2 h3 h4 h5
    unfold try_entry
    simp [h1, not_le.mpr h2, not_le.mpr h3, h4, h5]
  · intro cfg env rt s p r st h1 h2 h3 h4 h5
    unfold try_entry
    simp [h1, not_le.mpr h2, not_le.mpr h3, h4, h5]
  · intro cfg env rt s p p₂ r r₂ h1
    rcases try_entry_rt_cases cfg env rt s p r with h | h
    · -- first call left the runtime unchanged: analyse the second call
      rw [h]
      rcases try_entry_rt_cases cfg env rt s p₂ r₂ with h2 | h2
      · rw [h2]
        simp [lookup_none_countP s rt.open_positions h1]
      · rw [h2.1, List.countP_cons]
        simp [lookup_none_countP s rt.open_positions h1]
    · -- first call recorded the position: the second call is a no-op
      have hsome : (((try_entry cfg env rt s p r).rt.open_positions).lookup s).isSome := by
        rw [h.1]
        simp [List.lookup]
      rw [hnoop cfg env _ s p₂ r₂ hsome, h.1, List.countP_cons]
      simp [lookup_none_countP s rt.open_positions h1]

/-- A runtime already holding one position in Samsung at 70000. -/
def rtHeld : EngineRuntime :=
  { EngineRuntime.init with open_positions := [("005930", ⟨1, 70000, 21⟩)] }

/-- Witness for `claimC5_entry_idempotent`: a held position makes the
entry a no-op (first conjunct at concrete inputs). -/
theorem claimC5_witness :
    (rtHeld.open_positions.lookup "005930").isSome ∧
    try_entry cfgDefault envSim rtHeld "005930" 70000 "r" = ⟨rtHeld, [], none⟩ :=
  ⟨by decide,
    claimC5_entry_idempotent.1 cfgDefault envSim rtHeld "005930" 70000 "r" (by decide)⟩

/-! ## C6 — exit rule -/

/-- C6: for a held position with a current quote, the exit predicate is
`(price/entryPrice - 1) * 100 ≤ -stopLossPct ∨ ... ≥ takeProfitPct`, a
SELL is submitted exactly when it holds, and with `entryPrice = 70000`,
`stopLossPct = 1.8`, `takeProfitPct = 4.2` a quote at 68700 triggers an
exit while one at 69000 does not. -/
theorem claimC6_exit_rule :
    (∀ (ex : ExitCfg) (entry_price price : ℚ),
      should_exit ex entry_price price = true ↔
        ((price / entry_price - 1) * 100 ≤ -ex.stop_loss_pct ∨
         (price / entry_price - 1) * 100 ≥ ex.take_profit_pct)) ∧
    (∀ (cfg : Config) (env : OrderEnv) (now : ℚ) (rt : EngineRuntime) (q : Quote)
      (pos : Position),
      rt.open_positions.lookup q.symbol = some pos →
      ((Event.order q.symbol pos.qty "SELL" q.price) ∈ (manage_one cfg env now rt q).events ↔
        should_exit cfg.stages.exit pos.entry_price q.price = true)) ∧
    should_exit cfgDefault.stages.exit 70000 68700 = true ∧
    should_exit cfgDefault.stages.exit 70000 69000 = false := by
  refine ⟨?_, ?_, ?_, ?_⟩
  · intro ex entry_price price
    simp [should_exit]
  · intro cfg env now rt q pos h1
    cases h2 : should_exit cfg.stages.exit pos.entry_price q.price with
    | false => simp [manage_one, h1, h2]
    | true =>
      simp only [manage_one, h1, h2, if_true]
      cases h3 : env.place_order q.symbol pos.qty "SELL" q.price with
      | error e => simp
      | ok st =>
        by_cases h4 : st = .SIMULATED ∨ st = .FILLED
        · simp [h4]
        · simp [h4]
  · norm_num [should_exit, cfgDefault]
  · norm_num [should_exit, cfgDefault]

/-- Witness for `claimC6_exit_rule`: the SELL-iff-exit equivalence at a
concrete held position and the triggering 68700 quote. -/
theorem claimC6_witness :
    rtHeld.open_positions.lookup "005930" = some ⟨1, 70000, 21⟩ ∧
    ((Event.order "005930" (21 : ℤ) "SELL" (68700 : ℚ)) ∈
      (manage_one cfgDefault envSim 0 rtHeld
        { symbol := "005930", price := 68700, volume_ratio := 1, volatility_pct := 1,
          execution_strength := 1, spread_pct := 1, trend_slope := 1 }).events ↔
      should_exit cfgDefault.stages.exit 70000 68700 = true) :=
  ⟨by decide,
    claimC6_exit_rule.2.1 cfgDefault envSim 0 rtHeld
      { symbol := "005930", price := 68700, volume_ratio := 1, volatility_pct := 1,
        execution_strength := 1, spread_pct := 1, trend_slope := 1 }
      ⟨1, 70000, 21⟩ (by decide)⟩

/-! ## C7 — the daily-loss accumulator is never positive -/

/-- `_try_entry` never touches `daily_loss_krw`. -/
theorem try_entry_loss_eq (cfg : Config) (env : OrderEnv) (rt : EngineRuntime)
    (s : String) (p : ℚ) (r : String) :
    (try_entry cfg env rt s p r).rt.daily_loss_krw = rt.daily_loss_krw := by
  simp only [try_entry]
  split
  · rfl
  · split
    · rfl
    · split
      · rfl
      · split
        · rfl
        · split
          · rfl
          · rfl

/-- One `_manage_positions` iteration can only decrease `daily_loss_krw`
(it adds `min 0 pnl`). -/
theorem manage_one_loss_le (cfg : Config) (env : OrderEnv) (now : ℚ)
    (rt : EngineRuntime) (q : Quote) :
    (manage_one cfg env now rt q).rt.daily_loss_krw ≤ rt.daily_loss_krw := by
  simp only [manage_one]
  split
  · exact le_refl _
  · split
    · split
      · exact le_refl _
      · split
        · exact add_le_of_nonpos_right (min_le_left _ _)
        · exact le_refl _
    · exact le_refl _

/-- The scoring/entry loop never changes `daily_loss_krw`. -/
theorem process_quotes_loss_eq (cfg : Config) (env : OrderEnv) (status : MarketStatus) :
    ∀ (qs : List Quote) (rt : EngineRuntime),
      (process_quotes cfg env status qs rt).rt.daily_loss_krw = rt.daily_loss_krw := by
  intro qs
  induction qs with
  | nil => intro rt; rfl
  | cons q rest ih =>
    intro rt
    simp only [process_quotes]
    generalize hE : (if (evaluate cfg q).passed && status.can_place_order then
        try_entry cfg env rt q.symbol q.price (evaluate cfg q).reason
      else (⟨rt, [], none⟩ : StepOut)) = entry
    have hloss : entry.rt.daily_loss_krw = rt.daily_loss_krw := by
      rw [← hE]
      split
      · exact try_entry_loss_eq cfg env rt q.symbol q.price (evaluate cfg q).reason
      · rfl
    cases hErr : entry.err with
    | some e => simp [hErr, hloss]
    | none => simp [hErr, ih entry.rt, hloss]

/-- The exit loop only decreases `daily_loss_krw`. -/
theorem manage_positions_loss_le (cfg : Config) (env : OrderEnv) (now : ℚ) :
    ∀ (qs : List Quote) (rt : EngineRuntime),
      (manage_positions cfg env now qs rt).rt.daily_loss_krw ≤ rt.daily_loss_krw := by
  intro qs
  induction qs with
  | nil => intro rt; exact le_refl _
  | cons q rest ih =>
    intro rt
    simp only [manage_positions]
    cases hErr : (manage_one cfg env now rt q).err with
    | some e => simpa [hErr] using manage_one_loss_le cfg env now rt q
    | none =>
      simp only [hErr]
      exact le_trans (ih (manage_one cfg env now rt q).rt) (manage_one_loss_le cfg env now rt q)

/-- The fatal handler does not touch `daily_loss_krw`. -/
theorem fatal_transition_loss_eq (rt : EngineRuntime) (e : String) (evs : List Event) :
    (fatal_transition rt e evs).1.daily_loss_krw = rt.daily_loss_krw := rfl

/-- C7: the loss accumulator starts at 0, `enable` and `_try_entry` never
modify it, a filled exit adds exactly `min 0 pnl` while updating the
consecutive-loss streak (incremented on a loss, reset on a win) and
arming the cooldown at `now + cooldownMinutes·60` once the streak
reaches the configured count — and consequently `daily_loss_krw ≤ 0` is
preserved by every `tick`. -/
theorem claimC7_loss_accumulator :
    EngineRuntime.init.daily_loss_krw = 0 ∧
    (∀ (rt : EngineRuntime) (b : Bool), (enable rt b).daily_loss_krw = rt.daily_loss_krw) ∧
    (∀ (cfg : Config) (env : OrderEnv) (rt : EngineRuntime) (s : String) (p : ℚ) (r : String),
      (try_entry cfg env rt s p r).rt.daily_loss_krw = rt.daily_loss_krw) ∧
    (∀ (cfg : Config) (env : OrderEnv) (now : ℚ) (rt : EngineRuntime) (q : Quote)
      (pos : Position) (st : OrderStatus),
      rt.open_positions.lookup q.symbol = some pos →
      should_exit cfg.stages.exit pos.entry_price q.price = true →
      env.place_order q.symbol pos.qty "SELL" q.price = .ok st →
      (st = .SIMULATED ∨ st = .FILLED) →
      (manage_one cfg env now rt q).rt.daily_loss_krw =
        rt.daily_loss_krw + min 0 ((q.price - pos.entry_price) * pos.qty - 500) ∧
      (manage_one cfg env now rt q).rt.consecutive_losses =
        (if (q.price - pos.entry_price) * pos.qty - 500 < 0 then rt.consecutive_losses + 1
         else 0) ∧
      ((if (q.price - pos.entry_price) * pos.qty - 500 < 0 then rt.consecutive_losses + 1
          else 0) ≥ cfg.risk_limits.cooldown_after_consecutive_losses →
        (manage_one cfg env now rt q).rt.cooldown_until_epoch =
          now + cfg.risk_limits.cooldown_minutes * 60)) ∧
    (∀ (env : TickEnv) (rt : EngineRuntime),
      rt.daily_loss_krw ≤ 0 → (tick env rt).1.daily_loss_krw ≤ 0) := by
  refine ⟨rfl, fun rt b => rfl, try_entry_loss_eq, ?_, ?_⟩
  · intro cfg env now rt q pos st h1 h2 h3 h4
    simp only [manage_one, h1, h2, if_true, h3]
    rw [if_pos h4]
    exact ⟨rfl, rfl, fun h5 => if_pos h5⟩
  · intro env rt h
    simp only [tick]
    split
    · exact h
    · split
      · exact h
      · split
        · exact h
        · cases hq : env.fetch_quotes with
          | error e => simpa [fatal_transition] using h
          | ok quotes =>
            simp only
            have hp : (process_quotes env.config env.order env.market quotes rt).rt.daily_loss_krw ≤ 0 := by
              rw [process_quotes_loss_eq]
              exact h
            cases hperr : (process_quotes env.config env.order env.market quotes rt).err with
            | some e => simpa [hperr, fatal_transition] using hp
            | none =>
              simp only [hperr]
              have hm := manage_positions_loss_le env.config env.order env.now quotes
                (process_quotes env.config env.order env.market quotes rt).rt
              cases hmerr : (manage_positions env.config env.order env.now quotes
                  (process_quotes env.config env.order env.market quotes rt).rt).err with
              | some e => simpa [hmerr, fatal_transition] using le_trans hm hp
              | none => simpa [hmerr] using le_trans hm hp

/-- Witness for `claimC7_loss_accumulator`: a losing exit (70000 → 68700,
21 shares, 500 fee) adds its negative pnl to the accumulator and the
`tick`-preservation conjunct applied at a disabled runtime. -/
theorem claimC7_witness :
    rtHeld.open_positions.lookup "005930" = some ⟨1, 70000, 21⟩ ∧
    should_exit cfgDefault.stages.exit 70000 68700 = true ∧
    (manage_one cfgDefault envSim 0 rtHeld
        { symbol := "005930", price := 68700, volume_ratio := 1, volatility_pct := 1,
          execution_strength := 1, spread_pct := 1, trend_slope := 1 }).rt.daily_loss_krw =
      rtHeld.daily_loss_krw + min 0 (((68700 : ℚ) - 70000) * 21 - 500) := by
  have h2 : should_exit cfgDefault.stages.exit 70000 68700 = true := by
    norm_num [should_exit, cfgDefault]
  exact ⟨rfl, h2,
    (claimC7_loss_accumulator.2.2.2.1 cfgDefault envSim 0 rtHeld
      { symbol := "005930", price := 68700, volume_ratio := 1, volatility_pct := 1,
        execution_strength := 1, spread_pct := 1, trend_slope := 1 }
      ⟨1, 70000, 21⟩ .SIMULATED rfl h2 rfl (Or.inl rfl)).1⟩

/-! ## C4 — any cycle exception becomes the fatal transition -/

/-- A config whose risk caps are all unset, so admission always passes. -/
def cfgNoCaps : Config :=
  { cfgDefault with
    risk_limits := ⟨none, none, none, none, none, 4, 1500000, 3, 20⟩ }

/-- A freshly enabled runtime. -/
def rtOn : EngineRuntime := { enabled := true }

/-- A tick environment whose quote fetch raises `"boom"`. -/
def envBoom : TickEnv :=
  { config := cfgNoCaps, market := ⟨true, true, "정규장"⟩, now := 0,
    equity_env := none, fetch_quotes := .error "boom", order := envSim }

/-- C4: once the enabled/cooldown/risk gates pass, an exception escaping
the quote-fetch, the scoring/entry loop, or the exit loop makes `tick`
return the fatal transition — engine disabled, the exception text stored
in `fatal_error`, and the critical notification emitted — instead of
re-raising (`tick` is a total function into post-states). -/
theorem claimC4_fatal_containment (env : TickEnv) (rt : EngineRuntime)
    (h1 : rt.enabled = true)
    (h2 : ¬(rt.cooldown_until_epoch > env.now))
    (h3 : (risk_check_detail env.config env.equity_env rt env.now).1 = true) :
    (∀ (rt' : EngineRuntime) (e : String) (evs : List Event),
      (fatal_transition rt' e evs).1.enabled = false ∧
      (fatal_transition rt' e evs).1.fatal_error = some e ∧
      Event.notify ("[치명오류] 자동매매 중지: " ++ e) ∈ (fatal_transition rt' e evs).2) ∧
    (∀ e, env.fetch_quotes = .error e → tick env rt = fatal_transition rt e []) ∧
    (∀ quotes e, env.fetch_quotes = .ok quotes →
      (process_quotes env.config env.order env.market quotes rt).err = some e →
      tick env rt =
        fatal_transition (process_quotes env.config env.order env.market quotes rt).rt e
          (process_quotes env.config env.order env.market quotes rt).events) ∧
    (∀ quotes e, env.fetch_quotes = .ok quotes →
      (process_quotes env.config env.order env.market quotes rt).err = none →
      (manage_positions env.config env.order env.now quotes
        (process_quotes env.config env.order env.market quotes rt).rt).err = some e →
      tick env rt =
        fatal_transition
          (manage_positions env.config env.order env.now quotes
            (process_quotes env.config env.order env.market quotes rt).rt).rt e
          ((process_quotes env.config env.order env.market quotes rt).events ++
            (manage_positions env.config env.order env.now quotes
              (process_quotes env.config env.order env.market quotes rt).rt).events)) := by
  have htick : tick env rt =
      (match env.fetch_quotes with
       | .error e => fatal_transition rt e []
       | .ok quotes =>
         let p := process_quotes env.config env.order env.market quotes rt
         match p.err with
         | some e => fatal_transition p.rt e p.events
         | none =>
           let m := manage_positions env.config env.order env.now quotes p.rt
           match m.err with
           | some e => fatal_transition m.rt e (p.events ++ m.events)
           | none => (m.rt, p.events ++ m.events)) := by
    simp only [tick, h1, h3, Bool.not_true, Bool.false_eq_true, if_false, if_neg h2]
  refine ⟨?_, ?_, ?_, ?_⟩
  · intro rt' e evs
    exact ⟨rfl, rfl, by simp [fatal_transition]⟩
  · intro e he
    rw [htick, he]
  · intro quotes e hq hp
    rw [htick, hq]
    simp only [hp]
  · intro quotes e hq hp hm
    rw [htick, hq]
    simp only [hp, hm]

/-- Witness for `claimC4_fatal_containment`: a quote-fetch failure
(`"boom"`) in an otherwise healthy enabled engine produces exactly the
fatal transition. -/
theorem claimC4_witness :
    rtOn.enabled = true ∧
    ¬(rtOn.cooldown_until_epoch > envBoom.now) ∧
    (risk_check_detail envBoom.config envBoom.equity_env rtOn envBoom.now).1 = true ∧
    tick envBoom rtOn = fatal_transition rtOn "boom" [] :=
  ⟨rfl, by decide, by decide,
    (claimC4_fatal_containment envBoom rtOn rfl (by decide) (by decide)).2.1 "boom" rfl⟩

/-! ## C10 — manual diagnosis is read-only on trading state -/

/-- C10: for every environment, credential situation and engine state,
`run_manual_diagnosis` returns the runtime unchanged (every
`EngineRuntime` field as it was) and performs no trading effect — no
signal/trade store write, no order, no notification — on both its normal
and its exception return path, even though it scores every fetched
quote. -/
theorem claimC10_diagnosis_readonly (env : TickEnv) (ak asec an : Bool)
    (rt : EngineRuntime) :
    (run_manual_diagnosis env ak asec an rt).2.1 = rt ∧
    (run_manual_diagnosis env ak asec an rt).2.2 = [] := by
  cases hq : env.fetch_quotes <;> simp [run_manual_diagnosis, hq]

/-! ## C8 — missing LIVE credentials: typed error, but retried like a transient -/

/-- A LIVE-mode client with `KIS_APPKEY` unset. -/
def clientNoKey : KISClient :=
  { dry_run := false, appkey := "", appsecret := "secret",
    account_no := "12345678-01", mock_live_order := false }

/-- A network in which the market is open and every call would succeed. -/
def netOpen : KISNet :=
  { market := ⟨true, true, "정규장"⟩, token_fetch := .ok ("tok", 86400),
    hashkey := .ok "hash", order_http := .ok (200, "0", "ok") }

/-- The empty token cache of a fresh client. -/
def cache0 : TokenCache := ⟨none, none⟩

/-- C8 counterexample: with `KIS_APPKEY` missing, the LIVE order path
runs the credential validation on 3 attempts — not a single attempt —
before surfacing the typed error, because the retry policy retries the
gateway's own error type and `_validate_live_env` raises exactly that
type. -/
theorem claimC8_counterexample :
    place_order clientNoKey netOpen 0 cache0 "005930" 1 "BUY" 70000 =
      (.error "Missing required LIVE env vars: KIS_APPKEY", cache0, 3) ∧
    ¬((place_order clientNoKey netOpen 0 cache0 "005930" 1 "BUY" 70000).2.2 = 1) :=
  ⟨rfl, by decide⟩

/-- C8 (amended): when required LIVE credentials are missing and the
market gate is open, every attempt of `place_order` fails fast with the
typed validation error before any network call and without touching the
token cache — but the failure is retried under the same policy as
transient gateway failures, surfacing only after exactly 3 attempts
(not after a single attempt). -/
theorem claimC8_amended (c : KISClient) (net : KISNet) (now : ℚ) (st : TokenCache)
    (symbol : String) (qty : ℤ) (side : String) (price : ℚ) (err : String)
    (h1 : c.dry_run = false)
    (h2 : net.market.can_place_order = true)
    (h3 : validate_live_env c = some err) :
    place_order c net now st symbol qty side price = (.error err, st, 3) := by
  have honce : place_order_once c net now st symbol qty side price = (.error err, st) := by
    simp [place_order_once, h1, h2, h3]
  simp [place_order, retry_go, honce]

/-- Witness for `claimC8_amended` at the key-less client. -/
theorem claimC8_amended_witness :
    clientNoKey.dry_run = false ∧
    netOpen.market.can_place_order = true ∧
    validate_live_env clientNoKey = some "Missing required LIVE env vars: KIS_APPKEY" ∧
    place_order clientNoKey netOpen 0 cache0 "005930" 1 "BUY" 70000 =
      (.error "Missing required LIVE env vars: KIS_APPKEY", cache0, 3) :=
  ⟨rfl, rfl, by decide,
    claimC8_amended clientNoKey netOpen 0 cache0 "005930" 1 "BUY" 70000
      "Missing required LIVE env vars: KIS_APPKEY" rfl rfl (by decide)⟩

/-! ## C9 — token cache lifecycle -/

/-- C9 counterexample: a token fetched at `t = 0` with `expires_in = 30`
(nominal expiry `t = 30`) is cached until `t = 60` because the stored
window is `max(60, expires_in − 60)`; a call at `t = 45` reuses it with
no fetch although its nominal expiry has passed — refuting "never
reuses a token past its expiry". -/
theorem claimC9_counterexample :
    ∃ c₁ : TokenCache,
      get_access_token 0 (.ok ("tok", 30)) cache0 = .ok ("tok", c₁, 1) ∧
      get_access_token 45 (.ok ("tok", 30)) c₁ = .ok ("tok", c₁, 0) ∧
      (45 : ℚ) > 0 + 30 := by
  refine ⟨⟨some "tok", some (0 + ((max 60 ((30 : ℤ) - 60) : ℤ) : ℚ))⟩, rfl, ?_, by norm_num⟩
  have h2 : ("tok" ≠ "" ∧ (45 : ℚ) < 0 + ((max 60 ((30 : ℤ) - 60) : ℤ) : ℚ)) :=
    ⟨by decide, by norm_num⟩
  simp only [get_access_token]
  rw [if_pos h2]

/-- C9 (amended): the cache performs at most one fetch per stored
validity window — a call while the cached token is non-empty and the
clock is before the stored expiry returns it with zero fetches; a call
at/after the stored expiry, or with no cached token, performs exactly
one fetch and stores expiry `now + max(60, expires_in − 60)`; and for
tokens with `expires_in ≥ 120` (the broker default is 3600) any reuse
happens strictly before the nominal expiry — tokens with
`expires_in < 120` can be reused past nominal expiry (see the
counterexample). -/
theorem claimC9_amended :
    (∀ (t : String) (e now : ℚ) (fetch : Except String (String × ℤ)),
      t ≠ "" → now < e →
      get_access_token now fetch ⟨some t, some e⟩ = .ok (t, ⟨some t, some e⟩, 0)) ∧
    (∀ (t : String) (e now : ℚ) (tok : String) (E : ℤ),
      now ≥ e →
      get_access_token now (.ok (tok, E)) ⟨some t, some e⟩ =
        .ok (tok, ⟨some tok, some (now + ((max 60 (E - 60) : ℤ) : ℚ))⟩, 1)) ∧
    (∀ (now : ℚ) (tok : String) (E : ℤ) (eo : Option ℚ),
      get_access_token now (.ok (tok, E)) ⟨none, eo⟩ =
        .ok (tok, ⟨some tok, some (now + ((max 60 (E - 60) : ℤ) : ℚ))⟩, 1)) ∧
    (∀ (t0 : ℚ) (E : ℤ) (tok t' : String) (c' : TokenCache)
      (fetch : Except String (String × ℤ)) (now : ℚ),
      E ≥ 120 →
      get_access_token now fetch ⟨some tok, some (t0 + ((max 60 (E - 60) : ℤ) : ℚ))⟩ =
        .ok (t', c', 0) →
      now < t0 + E) := by
  refine ⟨?_, ?_, ?_, ?_⟩
  · intro t e now fetch h1 h2
    simp [get_access_token, h1, h2]
  · intro t e now tok E h
    simp [get_access_token, not_lt.mpr h]
  · intro now tok E eo
    simp [get_access_token]
  · intro t0 E tok t' c' fetch now hE hres
    by_cases hc : (tok ≠ "" ∧ now < t0 + ((max 60 (E - 60) : ℤ) : ℚ))
    · have hmax : max 60 (E - 60) = E - 60 := max_eq_right (by omega)
      have hlt : now < t0 + ((E - 60 : ℤ) : ℚ) := by rw [hmax] at hc; exact hc.2
      push_cast at hlt ⊢
      linarith
    · exfalso
      cases fetch with
      | error e =>
        simp only [get_access_token] at hres
        rw [if_neg hc] at hres
        simp at hres
      | ok pr =>
        simp only [get_access_token] at hres
        rw [if_neg hc] at hres
        simp at hres

/-- Witness for `claimC9_amended`: a valid cached token at `now = 0`,
expiry 3600, is reused without any network call. -/
theorem claimC9_amended_witness :
    ("tok" : String) ≠ "" ∧ (0 : ℚ) < 3600 ∧
    get_access_token 0 (.error "unused") ⟨some "tok", some 3600⟩ =
      .ok ("tok", ⟨some "tok", some 3600⟩, 0) :=
  ⟨by decide, by norm_num,
    claimC9_amended.1 "tok" 3600 0 (.error "unused") (by decide) (by norm_num)⟩

end AutoTrade
